import Mathlib

/-!
Verification development for the smart-energy-optimizer analysis and
orchestration core.  The definitions below are shallow embeddings of the
JavaScript source: devices, readings and recommendations become structures
over `ℚ` (JS numbers on the exercised paths are exact decimals, so rational
arithmetic models them faithfully), the mutable orchestrator and
optimization-agent state becomes explicit state passing, and calls to
`Math.random` or the wall clock become explicit parameters.  Sequencing of
JS assignments is preserved: in particular `controlDevice` assigns the new
brightness before the power formula reads `device.brightness`, exactly as
the source does.
-/

/-- JS truthy-or default for optional numbers: `x || d` where `0`,
like a missing value, is falsy. -/
def jsOrQ (o : Option ℚ) (d : ℚ) : ℚ :=
  match o with
  | some q => if q = 0 then d else q
  | none => d

/-- JS truthy-or default for optional strings: the empty string is falsy. -/
def jsOrS (o : Option String) (d : String) : String :=
  match o with
  | some s => if s = "" then d else s
  | none => d

/-- `Math.round` on the exercised (finite) inputs: round half toward
positive infinity. -/
def jsRound (q : ℚ) : ℚ := ((⌊q + 1/2⌋ : ℤ) : ℚ)

/-- A JS value appearing in a `value` slot of a recommendation or a
control command: a string, a number, or null/undefined. -/
inductive JValue where
  | str (s : String)
  | num (q : ℚ)
  | null
  | nan
deriving Repr, DecidableEq

/-- Numeric value of a digit run, most significant first. -/
def digitsToNat (cs : List Char) : Nat :=
  cs.foldl (fun acc c => acc * 10 + (c.toNat - '0'.toNat)) 0

/-- `parseInt` as used by `controlDevice`: leading digits of a string, the
truncation of a number.  The claims under verification never exercise
`parseInt` on inputs without leading digits, so the NaN result of JS is
not modelled and defaults to 0. -/
def jsParseInt (v : JValue) : ℚ :=
  match v with
  | .num q => ((q.floor : ℤ) : ℚ)
  | .str s =>
      let cs := s.toList.dropWhile (fun c => c = ' ')
      match cs with
      | '-' :: rest => -(digitsToNat (rest.takeWhile Char.isDigit) : ℚ)
      | _ => (digitsToNat (cs.takeWhile Char.isDigit) : ℚ)
  | .null => 0
  | .nan => 0

/-- One controllable appliance, as stored in the orchestrator device list.
`targetTemp` and `brightness` are `none` on devices that lack the field. -/
structure Device where
  id : String
  name : String
  type : String
  location : String
  isOn : Bool
  currentPower : ℚ
  todaysUsage : ℚ
  todaysCost : ℚ
  targetTemp : Option ℚ := none
  brightness : Option ℚ := none
deriving Repr, DecidableEq

/-- One timestamped snapshot of total power.  The timestamp is abstracted
to its hour of day, the only part of it the analysis code reads. -/
structure Reading where
  hour : Nat
  totalPower : ℚ
deriving Repr, DecidableEq

/-- A broadcast event relevant to the verified claims. -/
inductive Event where
  | deviceUpdate (d : Device)
  | energyUpdate (r : Reading)
deriving Repr, DecidableEq

/-- The device list of `initializeMockDevices` in the real orchestrator. -/
def initializeMockDevices : List Device :=
  [ { id := "hvac_001", name := "Living Room Thermostat", type := "hvac",
      location := "Living Room", isOn := true, currentPower := 2800,
      todaysUsage := 49/2, todaysCost := 49/10, targetTemp := some 72 },
    { id := "water_heater_001", name := "Water Heater", type := "water_heater",
      location := "Basement", isOn := true, currentPower := 3200,
      todaysUsage := 91/5, todaysCost := 91/25 },
    { id := "lighting_001", name := "Kitchen Lights", type := "lighting",
      location := "Kitchen", isOn := true, currentPower := 180,
      todaysUsage := 21/10, todaysCost := 21/50, brightness := some 100 },
    { id := "washer_001", name := "Washing Machine", type := "appliance",
      location := "Laundry Room", isOn := false, currentPower := 0,
      todaysUsage := 7/2, todaysCost := 7/10 } ]

/-- `getBaseUsage` of the orchestrator. -/
def getBaseUsage (deviceType : String) : ℚ :=
  if deviceType = "hvac" then 3000
  else if deviceType = "water_heater" then 4000
  else if deviceType = "lighting" then 200
  else if deviceType = "appliance" then 1500
  else 1000

/-- `getTimeMultiplier` of the orchestrator (same table in the prediction
agent and the watsonx service). -/
def getTimeMultiplier (hour : Nat) : ℚ :=
  if (7 ≤ hour ∧ hour ≤ 9) ∨ (18 ≤ hour ∧ hour ≤ 21) then 9/5
  else if 23 ≤ hour ∨ hour ≤ 6 then 3/10
  else 1

/-- The body of the `switch (action)` statement of
`RealEnergyManagementOrchestrator.controlDevice`.  The source assigns
`device.brightness = parseInt(value)` first and only then recomputes
`device.currentPower = (device.currentPower / device.brightness) * parseInt(value)`,
so the divisor is already the new brightness. -/
def applyControlAction (d : Device) (action : String) (value : JValue) : Device :=
  if action = "toggle" then { d with isOn := !d.isOn }
  else if action = "turn_on" then { d with isOn := true }
  else if action = "turn_off" then { d with isOn := false }
  else if action = "set_temperature" then
    if d.type = "hvac" then { d with targetTemp := some (jsParseInt value) } else d
  else if action = "set_brightness" then
    if d.type = "lighting" then
      let b := jsParseInt value
      { d with brightness := some b, currentPower := d.currentPower / b * b }
    else d
  else d

/-- Result record of `controlDevice`. -/
structure ControlResult where
  success : Bool
  message : Option String := none
  device : Option Device := none
deriving Repr, DecidableEq

/-- Replace the first element satisfying `p` by `y`; the JS `find` returns
an aliased object, so mutating it rewrites exactly the first match. -/
def setFirst (p : α → Bool) (y : α) : List α → List α
  | [] => []
  | x :: xs => if p x then y :: xs else x :: setFirst p y xs

/-- `RealEnergyManagementOrchestrator.controlDevice`: returns the result
record, the new device list, and the broadcast events emitted. -/
def controlDevice (devices : List Device) (deviceId action : String) (value : JValue) :
    ControlResult × List Device × List Event :=
  match devices.find? (fun d => d.id == deviceId) with
  | none => ({ success := false, message := some "Device not found" }, devices, [])
  | some d =>
      let d2 := applyControlAction d action value
      ({ success := true, device := some d2 },
       setFirst (fun x => x.id == deviceId) d2 devices,
       [Event.deviceUpdate d2])

/-- Per-device body of `updateDeviceReadings`: `rnd` is the `Math.random()`
draw for this device, in `[0, 1)`. -/
def updateDeviceTick (hour : Nat) (rnd : ℚ) (d : Device) : Device :=
  if d.isOn then
    let power := jsRound (getBaseUsage d.type * getTimeMultiplier hour * (8/10 + rnd * (4/10)))
    let usage := d.todaysUsage + power / 1000 / 120
    { d with currentPower := power, todaysUsage := usage, todaysCost := usage * (12/100) }
  else
    { d with currentPower := 0 }

/-- `RealEnergyManagementOrchestrator.updateDeviceReadings`: updates every
device (drawing `rand i` for the device at index `i`), forms the new
reading, and appends it to the bounded history (last 1000 kept). -/
def updateDeviceReadings (hour : Nat) (rand : Nat → ℚ)
    (devices : List Device) (readings : List Reading) :
    List Device × Reading × List Reading :=
  let devices2 := (devices.enum).map (fun p => updateDeviceTick hour (rand p.1) p.2)
  let reading : Reading := { hour := hour, totalPower := (devices2.map (·.currentPower)).sum }
  let hist := readings ++ [reading]
  (devices2, reading, if hist.length > 1000 then hist.drop (hist.length - 1000) else hist)

/-- A throwaway default for `List.getD` in closed statements. -/
def defaultDevice : Device :=
  { id := "", name := "", type := "", location := "", isOn := false,
    currentPower := 0, todaysUsage := 0, todaysCost := 0 }

/-- The device list of the C1 scenario: one lighting device at brightness
100 drawing 200 W. -/
def c1Devices : List Device :=
  [ { id := "light_1", name := "Scenario Light", type := "lighting",
      location := "Kitchen", isOn := true, currentPower := 200,
      todaysUsage := 0, todaysCost := 0, brightness := some 100 } ]

/-- Replacing the first `p`-match by the found element itself leaves the
list unchanged. -/
theorem setFirst_find?_self (p : α → Bool) (d : α) (l : List α)
    (h : l.find? p = some d) : setFirst p d l = l := by
  induction l with
  | nil => simp at h
  | cons x xs ih =>
    by_cases hx : p x
    · rw [List.find?_cons_of_pos _ hx, Option.some_inj] at h
      subst h
      simp [setFirst, hx]
    · rw [List.find?_cons_of_neg _ hx] at h
      simp [setFirst, hx, ih h]

/-- C1: evaluation of `controlDevice` at the failing input of the spec
scenario.  Setting brightness from 100 to 50 on a lighting device drawing
200 W updates the brightness but leaves `currentPower` at 200 — not the
proportional 100 the spec requires — because the source overwrites
`device.brightness` with the new value before dividing by it. -/
theorem c1_brightness_rescale_is_noop :
    ((controlDevice c1Devices "light_1" "set_brightness" (JValue.str "50")).1.device.map
        (fun d => (d.brightness, d.currentPower))) = some (some 50, 200) ∧
      ((controlDevice c1Devices "light_1" "set_brightness" (JValue.str "50")).1.device.map
        (fun d => d.currentPower)) ≠ some 100 := by
  constructor <;>
    simp [controlDevice, c1Devices, applyControlAction, jsParseInt, digitsToNat, List.find?]

/-- C5 counterexample: `controlDevice` with action `turn_off` on the
initial HVAC device (on, 2800 W) turns it off but leaves `currentPower`
at 2800, so the off-implies-zero-power invariant fails right after a
control command. -/
theorem c5_turn_off_keeps_power :
    ((controlDevice initializeMockDevices "hvac_001" "turn_off" JValue.null).1.device.map
        (fun d => (d.isOn, d.currentPower))) = some (false, 2800) := rfl

/-- C5 (amended): after every `updateDeviceReadings` tick, every device
that is off reports zero power; the tick zeroes the power of each off
device and only assigns fresh positive draws to on devices. -/
theorem c5_off_implies_zero_power_after_tick (hour : Nat) (rand : Nat → ℚ)
    (devices : List Device) (readings : List Reading) :
    ∀ d ∈ (updateDeviceReadings hour rand devices readings).1,
      d.isOn = false → d.currentPower = 0 := by
  intro d hd hoff
  unfold updateDeviceReadings at hd
  simp only [List.mem_map] at hd
  obtain ⟨p, _, rfl⟩ := hd
  unfold updateDeviceTick at hoff ⊢
  by_cases hp : p.2.isOn
  · simp [hp] at hoff
  · simp [hp]

/-- C5 witness: the washing machine is off in the initial device list and
reports zero power after a concrete tick. -/
theorem c5_off_implies_zero_power_after_tick_witness :
    (initializeMockDevices.getD 3 defaultDevice) ∈
        (updateDeviceReadings 12 (fun _ => 1/2) initializeMockDevices []).1 ∧
      (initializeMockDevices.getD 3 defaultDevice).isOn = false ∧
      (initializeMockDevices.getD 3 defaultDevice).currentPower = 0 := by
  have hm : (initializeMockDevices.getD 3 defaultDevice) ∈
      (updateDeviceReadings 12 (fun _ => 1/2) initializeMockDevices []).1 :=
    List.mem_cons_of_mem _ (List.mem_cons_of_mem _ (List.mem_cons_of_mem _
      (List.mem_cons_self _ _)))
  exact ⟨hm, rfl,
    c5_off_implies_zero_power_after_tick 12 (fun _ => 1/2) initializeMockDevices [] _ hm rfl⟩

/-- C10: for an existing device, `controlDevice` with an action outside
the five handled ones, or `set_temperature` on a non-hvac device, or
`set_brightness` on a non-lighting device, changes no device field, still
reports success, and still broadcasts a device_update event. -/
theorem c10_unhandled_action_success_no_change
    (devices : List Device) (deviceId action : String) (value : JValue) (d : Device)
    (hfind : devices.find? (fun x => x.id == deviceId) = some d)
    (haction :
      action ∉ ["toggle", "turn_on", "turn_off", "set_temperature", "set_brightness"] ∨
      (action = "set_temperature" ∧ d.type ≠ "hvac") ∨
      (action = "set_brightness" ∧ d.type ≠ "lighting")) :
    controlDevice devices deviceId action value =
      ({ success := true, message := none, device := some d }, devices,
        [Event.deviceUpdate d]) := by
  have hact : applyControlAction d action value = d := by
    rcases haction with h | ⟨h, ht⟩ | ⟨h, ht⟩
    · simp only [List.mem_cons, List.not_mem_nil, or_false, not_or] at h
      obtain ⟨h1, h2, h3, h4, h5⟩ := h
      simp [applyControlAction, h1, h2, h3, h4, h5]
    · subst h
      simp [applyControlAction, ht]
    · subst h
      simp [applyControlAction, ht]
  unfold controlDevice
  rw [hfind]
  simp [hact, setFirst_find?_self _ _ _ hfind]

/-- C10 witness: the recommendation action verb schedule on the (off)
washing machine succeeds, broadcasts, and changes nothing. -/
theorem c10_unhandled_action_success_no_change_witness :
    controlDevice initializeMockDevices "washer_001" "schedule" (JValue.str "23:00") =
      ({ success := true, message := none,
         device := some (initializeMockDevices.getD 3 defaultDevice) },
       initializeMockDevices,
       [Event.deviceUpdate (initializeMockDevices.getD 3 defaultDevice)]) :=
  c10_unhandled_action_success_no_change initializeMockDevices "washer_001" "schedule"
    (JValue.str "23:00") (initializeMockDevices.getD 3 defaultDevice)
    rfl (Or.inl (by decide))

/-- One detected anomaly of `EnergyMonitorAgent.detectAnomalies`.  The
free-text description field of the source is omitted; the numeric fields
it is formatted from are kept. -/
structure Anomaly where
  type : String
  severity : String
  current_usage : Option ℚ := none
  baseline_usage : Option ℚ := none
  deviation_percent : Option ℚ := none
  device_id : Option String := none
deriving Repr, DecidableEq

/-- `this.anomalyThreshold` of the monitor agent: a 30 percent deviation
triggers an anomaly. -/
def anomalyThreshold : ℚ := 3/10

/-- `EnergyMonitorAgent.detectAnomalies`: compares the average of the last
10 readings with the average of the 20 readings before them, and flags any
device that is on while drawing no power. -/
def detectAnomalies (devices : List Device) (historicalData : List Reading) : List Anomaly :=
  if historicalData.length < 20 then []
  else
    let recent := historicalData.drop (historicalData.length - 10)
    let baseline := (historicalData.take (historicalData.length - 10)).drop
      (historicalData.length - 30)
    let recentAvg := (recent.map (·.totalPower)).sum / recent.length
    let baselineAvg := (baseline.map (·.totalPower)).sum / baseline.length
    let deviation := |recentAvg - baselineAvg| / baselineAvg
    let usageAnomalies : List Anomaly :=
      if deviation > anomalyThreshold then
        [{ type := "usage_deviation",
           severity := if deviation > 1/2 then "high" else "medium",
           current_usage := some (jsRound recentAvg),
           baseline_usage := some (jsRound baselineAvg),
           deviation_percent := some (jsRound (deviation * 100)) }]
      else []
    let deviceAnomalies : List Anomaly := devices.filterMap (fun d =>
      if d.isOn && d.currentPower == 0 then
        some { type := "device_malfunction", severity := "high", device_id := some d.id }
      else none)
    usageAnomalies ++ deviceAnomalies

/-- Devices of the C8 scenario: every device on with nonzero draw,
totalling 2000 W. -/
def c8Devices : List Device :=
  [ { id := "hvac_001", name := "Living Room Thermostat", type := "hvac",
      location := "Living Room", isOn := true, currentPower := 1800,
      todaysUsage := 0, todaysCost := 0, targetTemp := some 72 },
    { id := "lighting_001", name := "Kitchen Lights", type := "lighting",
      location := "Kitchen", isOn := true, currentPower := 200,
      todaysUsage := 0, todaysCost := 0, brightness := some 100 } ]

/-- The C8 scenario history: 30 readings of 2000 W, then one of 4000 W. -/
def c8Hist : List Reading :=
  List.replicate 30 { hour := 12, totalPower := 2000 } ++ [{ hour := 12, totalPower := 4000 }]

/-- History that does cross the threshold: 30 readings of 2000 W, then ten
readings of 4000 W. -/
def c8HistTen : List Reading :=
  List.replicate 30 { hour := 12, totalPower := 2000 } ++
    List.replicate 10 { hour := 12, totalPower := 4000 }

/-- C8 counterexample: after 30 readings of 2000 W and one of 4000 W, the
recent-10 average is 2200 W against a baseline of 2000 W — a 10 percent
deviation, below the 30 percent threshold — so `detectAnomalies` reports
no anomaly at all, contrary to the spec scenario. -/
theorem c8_single_spike_no_anomaly : detectAnomalies c8Devices c8Hist = [] := by
  norm_num [detectAnomalies, c8Devices, c8Hist, anomalyThreshold, List.replicate,
    List.filterMap, jsRound]

/-- C8 (amended): ten readings of 4000 W after 30 readings of 2000 W give
a 100 percent deviation, so `detectAnomalies` reports exactly one
usage-deviation anomaly of high severity. -/
theorem c8_sustained_spike_anomaly :
    detectAnomalies c8Devices c8HistTen =
      [{ type := "usage_deviation", severity := "high", current_usage := some 4000,
         baseline_usage := some 2000, deviation_percent := some 100 }] := by
  norm_num [detectAnomalies, c8Devices, c8HistTen, anomalyThreshold, List.replicate,
    List.filterMap, jsRound]

/-- One forecast point of the prediction agent. -/
structure Prediction where
  hour : Nat
  predictedUsage : ℚ
  predictedCost : ℚ
  confidence : ℚ
  factors : Option String := none
  time_context : Option String := none
  peak_probability : Option ℚ := none
  cost_tier : Option String := none
  source : Option String := none
deriving Repr, DecidableEq

/-- A throwaway default for `List.getD` in closed statements. -/
def defaultPrediction : Prediction :=
  { hour := 0, predictedUsage := 0, predictedCost := 0, confidence := 0 }

/-- `EnergyPredictionAgent.getTimeContext`. -/
def getTimeContext (hour : Nat) : String :=
  if 6 ≤ hour ∧ hour ≤ 9 then "morning_peak"
  else if 10 ≤ hour ∧ hour ≤ 16 then "daytime_normal"
  else if 17 ≤ hour ∧ hour ≤ 21 then "evening_peak"
  else if 22 ≤ hour ∧ hour ≤ 23 then "night_transition"
  else "overnight_low"

/-- `EnergyPredictionAgent.calculatePeakProbability`. -/
def calculatePeakProbability (hour : Nat) (usage : ℚ) : ℚ :=
  let base : ℚ := 1/10
  let withPeak := if (7 ≤ hour ∧ hour ≤ 9) ∨ (17 ≤ hour ∧ hour ≤ 21) then base + 6/10 else base
  let withUsage := if usage > 3000 then withPeak + 3/10 else withPeak
  min 1 withUsage

/-- `EnergyPredictionAgent.getCostTier`. -/
def getCostTier (hour : Nat) : String :=
  if (7 ≤ hour ∧ hour ≤ 9) ∨ (17 ≤ hour ∧ hour ≤ 21) then "peak"
  else if 23 ≤ hour ∨ hour ≤ 6 then "off_peak"
  else "standard"

/-- `EnergyPredictionAgent.validatePredictions`: drops points with
non-positive or implausible usage or out-of-range confidence, then clamps
the surviving values into fixed bounds. -/
def validatePredictions (ps : List Prediction) : List Prediction :=
  (ps.filter (fun p =>
      p.predictedUsage > 0 ∧ p.predictedUsage < 20000 ∧ p.confidence > 0 ∧ p.confidence ≤ 1)).map
    (fun p =>
      { p with
        predictedUsage := max 500 (min 15000 p.predictedUsage),
        predictedCost := max (1/10) (min 5 p.predictedCost),
        confidence := max (3/10) (min 1 p.confidence) })

/-- `EnergyPredictionAgent.generateBaselinePredictions`: `rand i` is the
`Math.random()` draw of point `i`, in `[0, 1)`. -/
def generateBaselinePredictions (currentHour : Nat) (rand : Nat → ℚ) : List Prediction :=
  (List.range 24).map (fun i =>
    let hour := (currentHour + i) % 24
    let baseUsage := 2000 * getTimeMultiplier hour * (9/10 + rand i * (2/10))
    { hour := hour, predictedUsage := baseUsage,
      predictedCost := baseUsage * (12/100) / 1000, confidence := 7/10,
      factors := some (getTimeContext hour), time_context := some (getTimeContext hour),
      peak_probability := some (calculatePeakProbability hour baseUsage),
      cost_tier := some (getCostTier hour), source := some "baseline" })

/-- `EnergyPredictionAgent.calculateHourlyPatterns`: average total power
per hour of day, `none` for hours with no readings. -/
def calculateHourlyPatterns (hist : List Reading) (hour : Nat) : Option ℚ :=
  let vals := (hist.filter (fun r => r.hour == hour)).map (·.totalPower)
  if vals.length = 0 then none else some (vals.sum / vals.length)

/-- `EnergyPredictionAgent.calculateTrendFactor`: ratio of the most recent
24-reading average to the preceding 24-reading average, 1 below 48
readings. -/
def calculateTrendFactor (hist : List Reading) : ℚ :=
  if hist.length < 48 then 1
  else
    let recent := hist.drop (hist.length - 24)
    let previous := (hist.take (hist.length - 24)).drop (hist.length - 48)
    ((recent.map (·.totalPower)).sum / recent.length) /
      ((previous.map (·.totalPower)).sum / previous.length)

/-- `EnergyPredictionAgent.generateStatisticalPredictions`: per-hour
historical averages scaled by the trend factor; `hourlyPatterns[hour] || 2000`
falls back to 2000 for a missing (or zero) hourly average. -/
def generateStatisticalPredictions (hist : List Reading) (currentHour : Nat) : List Prediction :=
  (List.range 24).map (fun i =>
    let hour := (currentHour + i) % 24
    let historicalAvg := jsOrQ (calculateHourlyPatterns hist hour) 2000
    let predictedUsage := historicalAvg * calculateTrendFactor hist
    { hour := hour, predictedUsage := predictedUsage,
      predictedCost := predictedUsage * (12/100) / 1000, confidence := 3/4,
      factors := some (getTimeContext hour), time_context := some (getTimeContext hour),
      peak_probability := some (calculatePeakProbability hour predictedUsage),
      cost_tier := some (getCostTier hour), source := some "statistical" })

/-- The time multiplier is positive. -/
theorem getTimeMultiplier_pos (hour : Nat) : 0 < getTimeMultiplier hour := by
  unfold getTimeMultiplier
  split_ifs <;> norm_num

/-- The time multiplier is at most 9/5. -/
theorem getTimeMultiplier_le (hour : Nat) : getTimeMultiplier hour ≤ 9/5 := by
  unfold getTimeMultiplier
  split_ifs <;> norm_num

/-- The head of a nonempty list is a member. -/
theorem getD_zero_mem (d : α) : ∀ l : List α, l ≠ [] → l.getD 0 d ∈ l
  | [], h => absurd rfl h
  | _ :: _, _ => by simp [List.getD]

/-- History exhibiting an unvalidated statistical forecast: 24 readings of
100 W followed by 24 readings of 15000 W, all in hour 0. -/
def c6Hist : List Reading :=
  List.replicate 24 { hour := 0, totalPower := 100 } ++
    List.replicate 24 { hour := 0, totalPower := 15000 }

/-- C6 counterexample: the statistical fallback multiplies the hourly
average (7550 W here) by the unclamped trend factor (150 here) and emits
the result without validation, so a forecast point can carry
`predictedUsage` far above 20000 W. -/
theorem c6_statistical_usage_unbounded :
    ∃ p ∈ generateStatisticalPredictions c6Hist 0, 20000 < p.predictedUsage := by
  unfold generateStatisticalPredictions
  refine ⟨_, List.mem_map_of_mem _ (List.mem_range.mpr (show 0 < 24 by norm_num)), ?_⟩
  norm_num [c6Hist, calculateHourlyPatterns, calculateTrendFactor, jsOrQ, List.replicate]

/-- A forecast point that passes validation unchanged. -/
def c6SamplePred : Prediction :=
  { hour := 0, predictedUsage := 1000, predictedCost := 1, confidence := 1/2 }

/-- C6 (amended): every AI-validated point has confidence clamped into
[0.3, 1] and usage clamped into [500, 15000] (hence within (0, 20000));
every baseline point has confidence 0.7 and usage within (0, 20000); every
statistical-fallback point still has confidence within [0, 1] (it is
0.75), but its usage is not clamped. -/
theorem c6_forecast_point_bounds :
    (∀ ps : List Prediction, ∀ p ∈ validatePredictions ps,
        (3/10 : ℚ) ≤ p.confidence ∧ p.confidence ≤ 1 ∧
          (0 : ℚ) < p.predictedUsage ∧ p.predictedUsage < 20000) ∧
      (∀ (currentHour : Nat) (rand : Nat → ℚ), (∀ i, 0 ≤ rand i ∧ rand i < 1) →
        ∀ p ∈ generateBaselinePredictions currentHour rand,
          (0 : ℚ) ≤ p.confidence ∧ p.confidence ≤ 1 ∧
            (0 : ℚ) < p.predictedUsage ∧ p.predictedUsage < 20000) ∧
      (∀ (hist : List Reading) (currentHour : Nat),
        ∀ p ∈ generateStatisticalPredictions hist currentHour,
          (0 : ℚ) ≤ p.confidence ∧ p.confidence ≤ 1) := by
  refine ⟨?_, ?_, ?_⟩
  · intro ps p hp
    unfold validatePredictions at hp
    simp only [List.mem_map, List.mem_filter] at hp
    obtain ⟨q, ⟨_, _⟩, rfl⟩ := hp
    refine ⟨le_max_left _ _, max_le (by norm_num) (min_le_left _ _),
      lt_of_lt_of_le (by norm_num) (le_max_left _ _),
      max_lt (by norm_num) (lt_of_le_of_lt (min_le_left _ _) (by norm_num))⟩
  · intro currentHour rand hrand p hp
    unfold generateBaselinePredictions at hp
    simp only [List.mem_map, List.mem_range] at hp
    obtain ⟨i, _, rfl⟩ := hp
    obtain ⟨hr0, hr1⟩ := hrand i
    have hm0 := getTimeMultiplier_pos ((currentHour + i) % 24)
    have hm1 := getTimeMultiplier_le ((currentHour + i) % 24)
    have hf0 : (0:ℚ) < 9/10 + rand i * (2/10) := by nlinarith
    have hf1 : (9:ℚ)/10 + rand i * (2/10) < 11/10 := by nlinarith
    refine ⟨by norm_num, by norm_num, ?_, ?_⟩
    · exact mul_pos (mul_pos (by norm_num) hm0) hf0
    · calc 2000 * getTimeMultiplier ((currentHour + i) % 24) * (9/10 + rand i * (2/10)) ≤
          2000 * (9/5) * (9/10 + rand i * (2/10)) := by nlinarith
        _ < 2000 * (9/5) * (11/10) := by nlinarith
        _ < 20000 := by norm_num
  · intro hist currentHour p hp
    unfold generateStatisticalPredictions at hp
    simp only [List.mem_map, List.mem_range] at hp
    obtain ⟨i, _, rfl⟩ := hp
    exact ⟨by norm_num, by norm_num⟩

/-- C6 witness: the bounds instantiated on a concrete validated point,
a concrete baseline point, and a concrete statistical point. -/
theorem c6_forecast_point_bounds_witness :
    ((3:ℚ)/10 ≤ ((validatePredictions [c6SamplePred]).getD 0 defaultPrediction).confidence) ∧
      ((0:ℚ) <
        ((generateBaselinePredictions 0 (fun _ => 1/2)).getD 0 defaultPrediction).predictedUsage) ∧
      ((0:ℚ) ≤ ((generateStatisticalPredictions [] 5).getD 0 defaultPrediction).confidence) := by
  have h1 : (validatePredictions [c6SamplePred]).getD 0 defaultPrediction ∈
      validatePredictions [c6SamplePred] := by
    apply getD_zero_mem
    norm_num [validatePredictions, c6SamplePred]
  have h2 : (generateBaselinePredictions 0 (fun _ => 1/2)).getD 0 defaultPrediction ∈
      generateBaselinePredictions 0 (fun _ => 1/2) := by
    apply getD_zero_mem
    simp [generateBaselinePredictions, List.map_eq_nil_iff, List.range_eq_nil]
  have h3 : (generateStatisticalPredictions [] 5).getD 0 defaultPrediction ∈
      generateStatisticalPredictions [] 5 := by
    apply getD_zero_mem
    simp [generateStatisticalPredictions, List.map_eq_nil_iff, List.range_eq_nil]
  exact ⟨(c6_forecast_point_bounds.1 [c6SamplePred] _ h1).1,
    (c6_forecast_point_bounds.2.1 0 (fun _ => 1/2) (fun i => by norm_num) _ h2).2.2.1,
    (c6_forecast_point_bounds.2.2 [] 5 _ h3).1⟩

/-- JS strict-greater test against a possibly missing number: a missing
value compares false. -/
def jsGtQ (o : Option ℚ) (c : ℚ) : Bool :=
  match o with
  | some q => c < q
  | none => false

/-- JS subtraction from a possibly missing number: missing minus a number
is NaN. -/
def jsNumSub (o : Option ℚ) (q : ℚ) : JValue :=
  match o with
  | some x => JValue.num (x - q)
  | none => JValue.nan

/-- One recommendation of the optimization agent, with the enrichment
fields added by `enhanceRecommendations` and `prioritizeRecommendations`
optional (absent on raw recommendations). -/
structure Rec where
  id : String
  title : String := ""
  description : String := ""
  category : String := ""
  potentialSavings : Option ℚ := none
  priority : Option String := none
  difficulty : Option String := none
  estimatedTime : Option String := none
  devices : List String := []
  action : String := ""
  value : JValue := JValue.null
  source : Option String := none
  urgency_score : Option ℚ := none
  feasibility_score : Option ℚ := none
  comfort_impact : Option ℚ := none
  estimated_implementation_time : Option String := none
  composite_score : Option ℚ := none
  rank : Option Nat := none
  recommendation_strength : Option String := none
  applied_at : Option String := none
  status : Option String := none
deriving Repr, DecidableEq

/-- `EnergyOptimizationAgent.generateRuleBasedRecommendations`: an HVAC
recommendation when an on HVAC device exists and some prediction has peak
probability above 0.7, plus one dimming recommendation per on lighting
device with brightness above 80. -/
def generateRuleBasedRecommendations (devices : List Device) (predictions : List Prediction) :
    List Rec :=
  let peakPredictions := predictions.filter (fun p => jsGtQ p.peak_probability (7/10))
  let hvacRecs : List Rec :=
    match devices.find? (fun d => d.type == "hvac" && d.isOn) with
    | some hvacDevice =>
        if peakPredictions.length > 0 then
          [{ id := "rule_hvac_opt", title := "Optimize HVAC for Peak Hours",
             description := "Adjust thermostat to reduce usage during predicted peak hours",
             category := "hvac", potentialSavings := some (3/2), priority := some "high",
             difficulty := some "easy", estimatedTime := some "2 minutes",
             devices := [hvacDevice.id], action := "set_temperature",
             value := jsNumSub hvacDevice.targetTemp 2, source := some "rule_based" }]
        else []
    | none => []
  let lightingDevices := devices.filter (fun d => d.type == "lighting" && d.isOn)
  let lightRecs : List Rec := lightingDevices.filterMap (fun device =>
    if jsGtQ device.brightness 80 then
      some { id := "rule_light_" ++ device.id, title := "Reduce Lighting Brightness",
             description := "Dim lights to save energy with minimal impact",
             category := "lighting", potentialSavings := some (3/10), priority := some "low",
             difficulty := some "easy", estimatedTime := some "30 seconds",
             devices := [device.id], action := "set_brightness",
             value := JValue.str "75", source := some "rule_based" }
    else none)
  hvacRecs ++ lightRecs

/-- Case-insensitive literal-prefix test on a character list. -/
def startsWithCI (pre : String) (cs : List Char) : Bool :=
  (cs.take pre.length).map Char.toLower == pre.toList

/-- The scan of the regular expression of `parseTimeToMinutes`: find the
first digit run followed (after optional whitespace) by one of the unit
words minute, min, second, sec; return its value and whether the unit is
in seconds.  Unit words cannot start with a digit, so taking the maximal
digit run at each start position matches the backtracking behaviour. -/
def timeMatchScan : List Char → Option (Nat × Bool)
  | [] => none
  | c :: rest =>
    if c.isDigit then
      let run := (c :: rest).takeWhile Char.isDigit
      let afterWs := ((c :: rest).dropWhile Char.isDigit).dropWhile Char.isWhitespace
      if startsWithCI "minute" afterWs || startsWithCI "min" afterWs then
        some (digitsToNat run, false)
      else if startsWithCI "second" afterWs || startsWithCI "sec" afterWs then
        some (digitsToNat run, true)
      else timeMatchScan rest
    else timeMatchScan rest

/-- `EnergyOptimizationAgent.parseTimeToMinutes`: minutes value of a time
estimate string, seconds rounded up, defaulting to 5. -/
def parseTimeToMinutes (timeStr : Option String) : ℚ :=
  match timeStr with
  | none => 5
  | some s =>
      match timeMatchScan s.toList with
      | some (v, isSec) => if isSec then ((⌈(v : ℚ) / 60⌉ : ℤ) : ℚ) else (v : ℚ)
      | none => 5

/-- JS truthy-or default on a number already present: zero is falsy. -/
def jsNonzeroOr (q d : ℚ) : ℚ := if q = 0 then d else q

/-- `EnergyOptimizationAgent.calculateCompositeScore`: the weighted sum of
normalized savings, urgency, feasibility, comfort, and implementation
time. -/
def calculateCompositeScore (r : Rec) : ℚ :=
  let savings := min 1 (jsOrQ r.potentialSavings 0 / 2)
  let urgency := jsOrQ r.urgency_score (1/2)
  let feasibility := jsOrQ r.feasibility_score (7/10)
  let comfort := 1 - jsOrQ r.comfort_impact (3/10)
  let implementation :=
    1 - min 1 (jsNonzeroOr (parseTimeToMinutes r.estimated_implementation_time) 5 / 30)
  savings * (3/10) + urgency * (25/100) + feasibility * (2/10) + comfort * (15/100) +
    implementation * (1/10)

/-- The composite score carried by a scored recommendation (0 when the
field is absent, which the sort never encounters). -/
def scoreOf (r : Rec) : ℚ := r.composite_score.getD 0

/-- The comparator of `prioritizeRecommendations`: sorted by
non-increasing composite score. -/
def scoreGE (a b : Rec) : Prop := scoreOf b ≤ scoreOf a

instance : DecidableRel scoreGE :=
  fun a b => inferInstanceAs (Decidable (scoreOf b ≤ scoreOf a))

instance : IsTotal Rec scoreGE := ⟨fun a b => le_total (scoreOf b) (scoreOf a)⟩

instance : IsTrans Rec scoreGE := ⟨fun _ _ _ hab hbc => le_trans hbc hab⟩

/-- `EnergyOptimizationAgent.getRecommendationStrength`. -/
def getRecommendationStrength (score : ℚ) : String :=
  if score > 8/10 then "strongly_recommended"
  else if score > 6/10 then "recommended"
  else if score > 4/10 then "consider"
  else "optional"

/-- First phase of `prioritizeRecommendations`: attach the composite
score. -/
def stampScore (r : Rec) : Rec :=
  { r with composite_score := some (calculateCompositeScore r) }

/-- Final phase of `prioritizeRecommendations`: derive the priority when
none was supplied, set the 1-based rank and the strength label. -/
def rankStamp (p : Nat × Rec) : Rec :=
  let derived :=
    if scoreOf p.2 > 8/10 then "high" else if scoreOf p.2 > 6/10 then "medium" else "low"
  { p.2 with
    priority := some (jsOrS p.2.priority derived),
    rank := some (p.1 + 1),
    recommendation_strength := some (getRecommendationStrength (scoreOf p.2)) }

/-- `EnergyOptimizationAgent.prioritizeRecommendations`: score every
recommendation, sort by non-increasing composite score, and stamp rank,
priority, and strength. -/
def prioritizeRecommendations (recs : List Rec) : List Rec :=
  ((List.insertionSort scoreGE (recs.map stampScore)).enum).map rankStamp

/-- A throwaway default for `List.getD` in closed statements. -/
def defaultRec : Rec := { id := "" }

/-- The device list after turning the kitchen lights off through
`controlDevice` — a state reachable from the initial one. -/
def c2Devices : List Device :=
  (controlDevice initializeMockDevices "lighting_001" "turn_off" JValue.null).2.1

/-- C2 counterexample: with the lights off and no peak predictions, the
rule-based fallback generator returns the empty list, so an
LLM-failure cycle can leave the active recommendation list empty. -/
theorem c2_rule_based_empty :
    generateRuleBasedRecommendations c2Devices [] = [] := by
  simp [c2Devices, controlDevice, applyControlAction, setFirst, initializeMockDevices,
    generateRuleBasedRecommendations, jsGtQ]

/-- C2 (amended): the rule-based generator is non-empty whenever some
lighting device is on with brightness above 80 (it then emits a dimming
recommendation); without such a device — and without an on HVAC device
accompanied by a peak prediction — it can return the empty list. -/
theorem c2_rule_based_nonempty_of_bright_light
    (devices : List Device) (predictions : List Prediction) (d : Device) (b : ℚ)
    (hd : d ∈ devices) (htype : d.type = "lighting") (hon : d.isOn = true)
    (hb : d.brightness = some b) (hbgt : 80 < b) :
    generateRuleBasedRecommendations devices predictions ≠ [] := by
  have hmem :
      ({ id := "rule_light_" ++ d.id, title := "Reduce Lighting Brightness",
         description := "Dim lights to save energy with minimal impact",
         category := "lighting", potentialSavings := some (3/10), priority := some "low",
         difficulty := some "easy", estimatedTime := some "30 seconds",
         devices := [d.id], action := "set_brightness",
         value := JValue.str "75", source := some "rule_based" } : Rec) ∈
      (devices.filter (fun x => x.type == "lighting" && x.isOn)).filterMap (fun device =>
        if jsGtQ device.brightness 80 then
          some { id := "rule_light_" ++ device.id, title := "Reduce Lighting Brightness",
                 description := "Dim lights to save energy with minimal impact",
                 category := "lighting", potentialSavings := some (3/10),
                 priority := some "low", difficulty := some "easy",
                 estimatedTime := some "30 seconds", devices := [device.id],
                 action := "set_brightness", value := JValue.str "75",
                 source := some "rule_based" }
        else none) :=
    List.mem_filterMap.mpr ⟨d, List.mem_filter.mpr ⟨hd, by simp [htype, hon]⟩,
      by simp [jsGtQ, hb, hbgt]⟩
  unfold generateRuleBasedRecommendations
  exact List.ne_nil_of_mem (List.mem_append_right _ hmem)

/-- C2 witness: on the initial device list (kitchen lights on at
brightness 100), the rule-based generator is non-empty even with no
predictions. -/
theorem c2_rule_based_nonempty_of_bright_light_witness :
    generateRuleBasedRecommendations initializeMockDevices [] ≠ [] :=
  c2_rule_based_nonempty_of_bright_light initializeMockDevices []
    (initializeMockDevices.getD 2 defaultDevice) 100
    (List.mem_cons_of_mem _ (List.mem_cons_of_mem _ (List.mem_cons_self _ _)))
    rfl rfl rfl (by norm_num)

/-- C7: the prioritized list is sorted by non-increasing composite score,
every element's rank is its 1-based position, and every element's stored
composite score is the weighted savings/urgency/feasibility/comfort/
implementation-time sum computed by `calculateCompositeScore`. -/
theorem c7_prioritize_sorted_and_ranked (recs : List Rec) :
    (∀ i j, i < j → j < (prioritizeRecommendations recs).length →
        scoreOf ((prioritizeRecommendations recs).getD j defaultRec) ≤
          scoreOf ((prioritizeRecommendations recs).getD i defaultRec)) ∧
      (∀ i, i < (prioritizeRecommendations recs).length →
        ((prioritizeRecommendations recs).getD i defaultRec).rank = some (i + 1)) ∧
      (∀ r ∈ prioritizeRecommendations recs,
        r.composite_score = some (calculateCompositeScore r)) := by
  have hlen : (prioritizeRecommendations recs).length =
      (List.insertionSort scoreGE (recs.map stampScore)).length := by
    simp [prioritizeRecommendations]
  have hget : ∀ i (hi : i < (prioritizeRecommendations recs).length),
      (prioritizeRecommendations recs).getD i defaultRec =
        rankStamp (i, (List.insertionSort scoreGE (recs.map stampScore)).get
          ⟨i, by rw [hlen] at hi; exact hi⟩) := by
    intro i hi
    rw [List.getD_eq_getElem?_getD, List.getElem?_eq_getElem hi]
    simp [prioritizeRecommendations, List.getElem_map, List.getElem_enum]
  have hsorted := List.sorted_insertionSort scoreGE (recs.map stampScore)
  refine ⟨?_, ?_, ?_⟩
  · intro i j hij hj
    have hi : i < (prioritizeRecommendations recs).length := lt_trans hij hj
    rw [hget i hi, hget j hj]
    exact hsorted.rel_get_of_lt hij
  · intro i hi
    rw [hget i hi]
    rfl
  · intro r hr
    unfold prioritizeRecommendations at hr
    obtain ⟨p, hp, rfl⟩ := List.mem_map.mp hr
    obtain ⟨i, x⟩ := p
    have hx : x ∈ List.insertionSort scoreGE (recs.map stampScore) := by
      have := List.mem_enum_iff_getElem?.mp hp
      exact List.getElem?_mem this
    have hx2 : x ∈ recs.map stampScore :=
      (List.perm_insertionSort scoreGE (recs.map stampScore)).subset hx
    obtain ⟨q, _, hq⟩ := List.mem_map.mp hx2
    rw [← hq]
    rfl

/-- Two concrete recommendations with distinct composite scores. -/
def c7SampleRecs : List Rec :=
  [ { id := "rec_small" },
    { id := "rec_big", potentialSavings := some 4, urgency_score := some 1,
      feasibility_score := some 1, comfort_impact := some 0,
      estimated_implementation_time := some "1 minute" } ]

/-- C7 witness: on a concrete two-element input the prioritized list is
non-increasing in composite score and ranked 1, 2. -/
theorem c7_prioritize_sorted_and_ranked_witness :
    (scoreOf ((prioritizeRecommendations c7SampleRecs).getD 1 defaultRec) ≤
        scoreOf ((prioritizeRecommendations c7SampleRecs).getD 0 defaultRec)) ∧
      ((prioritizeRecommendations c7SampleRecs).getD 0 defaultRec).rank = some 1 ∧
      ((prioritizeRecommendations c7SampleRecs).getD 1 defaultRec).rank = some 2 := by
  have hlen : (prioritizeRecommendations c7SampleRecs).length = 2 := by
    simp only [prioritizeRecommendations, List.length_map, List.enum_length]
    rw [(List.perm_insertionSort scoreGE _).length_eq]
    simp [c7SampleRecs]
  have h := c7_prioritize_sorted_and_ranked c7SampleRecs
  exact ⟨h.1 0 1 (by norm_num) (by rw [hlen]; norm_num),
    h.2.1 0 (by rw [hlen]; norm_num), h.2.1 1 (by rw [hlen]; norm_num)⟩

/-- Mutable state of the optimization agent touched by
`applyRecommendation`: the active list, the applied history, and the
tracked-savings counter. -/
structure OptState where
  recommendations : List Rec
  appliedRecommendations : List Rec
  savingsTracked : ℚ
deriving Repr, DecidableEq

/-- Result record of `applyRecommendation`. -/
structure ApplyResult where
  success : Bool
  message : String
  estimated_savings : Option ℚ := none
  total_tracked_savings : Option ℚ := none
deriving Repr, DecidableEq

/-- `EnergyOptimizationAgent.applyRecommendation`: look the id up in the
active list, issue one control command per affected device through `cb`
(stopping at the first failure, which aborts with a failure result and no
state change), then move the recommendation into the applied history and
add its savings.  `cb` returns the success flag of the device-control
result; `now` stands for the current timestamp string.  An empty `action`
is falsy in the source, which then skips the control loop. -/
def applyRecommendation (st : OptState) (recommendationId : String)
    (cb : String → String → JValue → Bool) (now : String) : ApplyResult × OptState :=
  match st.recommendations.find? (fun r => r.id == recommendationId) with
  | none => ({ success := false, message := "Recommendation not found" }, st)
  | some recommendation =>
      match (if recommendation.action = "" then none
             else recommendation.devices.find? (fun deviceId =>
               !(cb deviceId recommendation.action recommendation.value))) with
      | some failedId =>
          ({ success := false, message := "Failed to control device " ++ failedId }, st)
      | none =>
          let appliedRec :=
            { recommendation with applied_at := some now, status := some "applied" }
          let savings := jsOrQ recommendation.potentialSavings 0
          ({ success := true, message := "Recommendation applied successfully",
             estimated_savings := recommendation.potentialSavings,
             total_tracked_savings := some (st.savingsTracked + savings) },
           { recommendations :=
               st.recommendations.filter (fun r => !(r.id == recommendationId)),
             appliedRecommendations := st.appliedRecommendations ++ [appliedRec],
             savingsTracked := st.savingsTracked + savings })

/-- If the filter keeps exactly one element, `find?` returns it. -/
theorem find?_eq_of_filter_singleton {p : α → Bool} {l : List α} {a : α}
    (h : l.filter p = [a]) : l.find? p = some a := by
  induction l with
  | nil => simp at h
  | cons x xs ih =>
    by_cases hx : p x
    · rw [List.filter_cons_of_pos hx] at h
      rw [List.find?_cons_of_pos _ hx]
      exact congrArg some (List.cons_eq_cons.mp h).1
    · rw [List.filter_cons_of_neg hx] at h
      rw [List.find?_cons_of_neg _ hx]
      exact ih h

/-- `x || 0` on a present number is that number. -/
theorem jsOrQ_some_zero (s : ℚ) : jsOrQ (some s) 0 = s := by
  unfold jsOrQ
  split <;> simp_all

/-- C3: when the active list holds exactly one recommendation with the
requested id and the device-control callback succeeds on all its devices,
`applyRecommendation` reports success, removes exactly that recommendation
from the active list, appends it (stamped applied) to the history, and
adds exactly its `potentialSavings` to the tracked-savings counter. -/
theorem c3_apply_success (st : OptState) (recId : String) (r : Rec) (s : ℚ)
    (cb : String → String → JValue → Bool) (now : String)
    (huniq : st.recommendations.filter (fun x => x.id == recId) = [r])
    (hcb : ∀ deviceId ∈ r.devices, cb deviceId r.action r.value = true)
    (hs : r.potentialSavings = some s) :
    (applyRecommendation st recId cb now).1.success = true ∧
      List.Perm (r :: (applyRecommendation st recId cb now).2.recommendations)
        st.recommendations ∧
      (applyRecommendation st recId cb now).2.recommendations =
        st.recommendations.filter (fun x => !(x.id == recId)) ∧
      (applyRecommendation st recId cb now).2.appliedRecommendations =
        st.appliedRecommendations ++
          [{ r with applied_at := some now, status := some "applied" }] ∧
      (applyRecommendation st recId cb now).2.savingsTracked = st.savingsTracked + s := by
  have hfind := find?_eq_of_filter_singleton huniq
  have hloop : (if r.action = "" then none
      else r.devices.find? (fun deviceId => !(cb deviceId r.action r.value))) = none := by
    split
    · rfl
    · rw [List.find?_eq_none]
      intro x hx
      simp [hcb x hx]
  have hperm : List.Perm
      (r :: st.recommendations.filter (fun x => !(x.id == recId))) st.recommendations := by
    have := List.filter_append_perm (fun x => x.id == recId) st.recommendations
    rw [huniq] at this
    exact this
  unfold applyRecommendation
  simp only [hfind]
  simp only [hloop]
  refine ⟨?_, ?_, ?_, ?_, ?_⟩ <;>
    first
      | trivial
      | exact hperm
      | simp [hs, jsOrQ_some_zero]

/-- A concrete active recommendation and agent state. -/
def c3Rec : Rec :=
  { id := "rec1", potentialSavings := some (5/4), devices := ["hvac_001"],
    action := "set_temperature", value := JValue.str "68" }

/-- A concrete optimization-agent state holding one recommendation. -/
def c3State : OptState :=
  { recommendations := [c3Rec], appliedRecommendations := [], savingsTracked := 0 }

/-- C3 witness: applying the concrete recommendation with an
always-succeeding callback succeeds and tracks its savings. -/
theorem c3_apply_success_witness :
    (applyRecommendation c3State "rec1" (fun _ _ _ => true) "t0").1.success = true ∧
      (applyRecommendation c3State "rec1" (fun _ _ _ => true) "t0").2.savingsTracked =
        0 + 5/4 := by
  have h := c3_apply_success c3State "rec1" c3Rec (5/4) (fun _ _ _ => true) "t0"
    (by simp [c3State, c3Rec]) (fun _ _ => rfl) rfl
  exact ⟨h.1, h.2.2.2.2⟩

/-- C4: if the device-control callback fails on any device of the found
recommendation (whose action is a real command), `applyRecommendation`
returns a failure result and leaves the agent state unchanged; likewise an
unknown recommendation id returns a failure result and changes nothing. -/
theorem c4_apply_failure (st : OptState) (recId : String)
    (cb : String → String → JValue → Bool) (now : String) :
    (∀ r, st.recommendations.find? (fun x => x.id == recId) = some r →
        r.action ≠ "" → (∃ d ∈ r.devices, cb d r.action r.value = false) →
        (applyRecommendation st recId cb now).1.success = false ∧
          (applyRecommendation st recId cb now).2 = st) ∧
      (st.recommendations.find? (fun x => x.id == recId) = none →
        (applyRecommendation st recId cb now).1.success = false ∧
          (applyRecommendation st recId cb now).2 = st) := by
  constructor
  · intro r hfind hact hfail
    have hloop : (if r.action = "" then none
        else r.devices.find? (fun deviceId => !(cb deviceId r.action r.value))).isSome := by
      rw [if_neg hact, List.find?_isSome]
      obtain ⟨d, hd, hcbd⟩ := hfail
      exact ⟨d, hd, by simp [hcbd]⟩
    obtain ⟨fd, hfd⟩ := Option.isSome_iff_exists.mp hloop
    unfold applyRecommendation
    simp only [hfind]
    simp only [hfd]
    refine ⟨?_, ?_⟩ <;> trivial
  · intro hfind
    unfold applyRecommendation
    simp only [hfind]
    refine ⟨?_, ?_⟩ <;> trivial

/-- C4 witness: a failing callback on the concrete state leaves it
unchanged, and an unknown id fails without change. -/
theorem c4_apply_failure_witness :
    ((applyRecommendation c3State "rec1" (fun _ _ _ => false) "t0").1.success = false ∧
        (applyRecommendation c3State "rec1" (fun _ _ _ => false) "t0").2 = c3State) ∧
      ((applyRecommendation c3State "missing" (fun _ _ _ => true) "t0").1.success = false ∧
        (applyRecommendation c3State "missing" (fun _ _ _ => true) "t0").2 = c3State) :=
  ⟨(c4_apply_failure c3State "rec1" (fun _ _ _ => false) "t0").1 c3Rec (by simp [c3State, c3Rec])
      (by simp [c3Rec]) ⟨"hvac_001", by simp [c3Rec], rfl⟩,
    (c4_apply_failure c3State "missing" (fun _ _ _ => true) "t0").2 (by simp [c3State, c3Rec])⟩

/-- A JSON value, the result type of the modelled `JSON.parse`. -/
inductive Json where
  | null
  | bool (b : Bool)
  | num (q : ℚ)
  | str (s : String)
  | arr (items : List Json)
  | obj (fields : List (String × Json))

/-- JSON insignificant whitespace: space, tab, line feed, carriage
return. -/
def skipWs (cs : List Char) : List Char :=
  cs.dropWhile (fun c => c = ' ' ∨ c = '\t' ∨ c = '\n' ∨ c = '\x0d')

/-- Single-character JSON string escapes. -/
def escapeChar (c : Char) : Option Char :=
  if c = '"' then some '"'
  else if c = '\\' then some '\\'
  else if c = '/' then some '/'
  else if c = 'b' then some (Char.ofNat 8)
  else if c = 'f' then some (Char.ofNat 12)
  else if c = 'n' then some '\n'
  else if c = 'r' then some (Char.ofNat 13)
  else if c = 't' then some '\t'
  else none

/-- Hexadecimal digit value. -/
def hexVal (c : Char) : Option Nat :=
  if '0' ≤ c ∧ c ≤ '9' then some (c.toNat - '0'.toNat)
  else if 'a' ≤ c ∧ c ≤ 'f' then some (c.toNat - 'a'.toNat + 10)
  else if 'A' ≤ c ∧ c ≤ 'F' then some (c.toNat - 'A'.toNat + 10)
  else none

/-- Body of a JSON string after the opening quote: characters and escape
sequences up to the closing quote; unescaped control characters are
rejected.  The fuel argument bounds the recursion by the input length. -/
def parseStrBody : Nat → List Char → List Char → Option (String × List Char)
  | 0, _, _ => none
  | _+1, acc, '"' :: rest => some (⟨acc.reverse⟩, rest)
  | n+1, acc, '\\' :: rest =>
      (match rest with
       | 'u' :: h1 :: h2 :: h3 :: h4 :: rest2 =>
           (match hexVal h1, hexVal h2, hexVal h3, hexVal h4 with
            | some a, some b, some c, some d =>
                parseStrBody n (Char.ofNat (((a * 16 + b) * 16 + c) * 16 + d) :: acc) rest2
            | _, _, _, _ => none)
       | e :: rest2 =>
           (match escapeChar e with
            | some c => parseStrBody n (c :: acc) rest2
            | none => none)
       | [] => none)
  | n+1, acc, c :: rest => if c.toNat < 32 then none else parseStrBody n (c :: acc) rest
  | _+1, _, [] => none

/-- A JSON number: optional minus, integer part without leading zeros,
optional fraction, optional exponent.  The integer-only case avoids the
division, which equals the general formula there since the denominator is
one. -/
def parseNumberChars (cs : List Char) : Option (ℚ × List Char) :=
  let signSplit : Bool × List Char :=
    match cs with
    | '-' :: r => (true, r)
    | _ => (false, cs)
  let neg := signSplit.1
  let cs1 := signSplit.2
  let intRes : Option (List Char × List Char) :=
    match cs1 with
    | '0' :: r => some (['0'], r)
    | c :: r => if c.isDigit then some (c :: r.takeWhile Char.isDigit, r.dropWhile Char.isDigit)
                else none
    | [] => none
  match intRes with
  | none => none
  | some (intDigits, rest1) =>
    let fracRes : Option (List Char × List Char) :=
      match rest1 with
      | '.' :: r =>
          let ds := r.takeWhile Char.isDigit
          if ds.isEmpty then none else some (ds, r.dropWhile Char.isDigit)
      | _ => some ([], rest1)
    match fracRes with
    | none => none
    | some (fracDigits, rest2) =>
      let expRes : Option ((Bool × Nat) × List Char) :=
        match rest2 with
        | e :: r =>
            if e = 'e' ∨ e = 'E' then
              let esignSplit : Bool × List Char :=
                match r with
                | '+' :: rr => (false, rr)
                | '-' :: rr => (true, rr)
                | _ => (false, r)
              let ds := esignSplit.2.takeWhile Char.isDigit
              if ds.isEmpty then none
              else some ((esignSplit.1, digitsToNat ds), esignSplit.2.dropWhile Char.isDigit)
            else some ((false, 0), rest2)
        | [] => some ((false, 0), rest2)
      match expRes with
      | none => none
      | some ((esign, e), rest3) =>
          let mant : ℚ :=
            if fracDigits.isEmpty then (digitsToNat intDigits : ℚ)
            else (digitsToNat (intDigits ++ fracDigits) : ℚ) / (10 : ℚ) ^ fracDigits.length
          let scaled : ℚ :=
            if e = 0 then mant else if esign then mant / (10 : ℚ) ^ e else mant * (10 : ℚ) ^ e
          some (if neg then -scaled else scaled, rest3)

mutual

/-- One JSON value with leading whitespace, returning the remainder. -/
def parseValue : Nat → List Char → Option (Json × List Char)
  | 0, _ => none
  | n+1, cs =>
      match skipWs cs with
      | 'n' :: 'u' :: 'l' :: 'l' :: rest => some (Json.null, rest)
      | 't' :: 'r' :: 'u' :: 'e' :: rest => some (Json.bool true, rest)
      | 'f' :: 'a' :: 'l' :: 's' :: 'e' :: rest => some (Json.bool false, rest)
      | '"' :: rest =>
          (match parseStrBody (rest.length + 1) [] rest with
           | some (s, rest2) => some (Json.str s, rest2)
           | none => none)
      | '\x5b' :: rest => parseArrayItems n rest []
      | '\x7b' :: rest => parseObjItems n rest []
      | other =>
          (match parseNumberChars other with
           | some (q, rest) => some (Json.num q, rest)
           | none => none)

/-- Array elements after the opening bracket; the closing bracket alone is
only accepted while no element has been read, so trailing commas are
rejected. -/
def parseArrayItems : Nat → List Char → List Json → Option (Json × List Char)
  | 0, _, _ => none
  | n+1, cs, acc =>
      match skipWs cs with
      | '\x5d' :: rest => if acc.isEmpty then some (Json.arr [], rest) else none
      | _ =>
          (match parseValue n cs with
           | none => none
           | some (v, rest) =>
               match skipWs rest with
               | ',' :: rest2 => parseArrayItems n rest2 (v :: acc)
               | '\x5d' :: rest2 => some (Json.arr (v :: acc).reverse, rest2)
               | _ => none)

/-- Object members after the opening brace, same shape as the array
case with quoted keys and colons. -/
def parseObjItems : Nat → List Char → List (String × Json) → Option (Json × List Char)
  | 0, _, _ => none
  | n+1, cs, acc =>
      match skipWs cs with
      | '\x7d' :: rest => if acc.isEmpty then some (Json.obj [], rest) else none
      | '"' :: rest =>
          (match parseStrBody (rest.length + 1) [] rest with
           | none => none
           | some (k, rest2) =>
               match skipWs rest2 with
               | ':' :: rest3 =>
                   (match parseValue n rest3 with
                    | none => none
                    | some (v, rest4) =>
                        match skipWs rest4 with
                        | ',' :: rest5 => parseObjItems n rest5 ((k, v) :: acc)
                        | '\x7d' :: rest5 => some (Json.obj ((k, v) :: acc).reverse, rest5)
                        | _ => none)
               | _ => none)
      | _ => none

end

/-- `JSON.parse`: one JSON value spanning the whole text up to trailing
whitespace. -/
def jsonParse (s : String) : Option Json :=
  match parseValue (2 * s.length + 2) s.toList with
  | some (v, rest) => if skipWs rest = [] then some v else none
  | none => none

/-- The span matched by the greedy regular expression of
`parseJsonResponse`: from the first opening brace that precedes the last
closing brace, through that last closing brace. -/
def jsGreedyBraceSpan (cs : List Char) : Option (List Char) :=
  match (((cs.enum.filter (fun p => p.2 = '\x7d')).map Prod.fst).getLast?) with
  | none => none
  | some j =>
      match ((((cs.take j).enum.filter (fun p => p.2 = '\x7b')).map Prod.fst).head?) with
      | none => none
      | some i => some ((cs.take (j + 1)).drop i)

/-- Scan for the matching closing brace, keeping the consumed characters;
`depth` counts currently open braces. -/
def balancedFrom (acc : List Char) (depth : Nat) : List Char → Option (List Char)
  | [] => none
  | c :: rest =>
      if c = '\x7b' then balancedFrom (c :: acc) (depth + 1) rest
      else if c = '\x7d' then
        if depth = 1 then some (c :: acc).reverse
        else balancedFrom (c :: acc) (depth - 1) rest
      else balancedFrom (c :: acc) depth rest

/-- The extraction the specification describes, for comparison with the
greedy one the source performs: the first balanced brace span of the
text. -/
def specFirstBalancedBraceSpan (s : String) : Option String :=
  match s.toList.dropWhile (fun c => ¬ c = '\x7b') with
  | [] => none
  | cs => (balancedFrom [] 0 cs).map (fun l => (⟨l⟩ : String))

/-- `WatsonxService.parseJsonResponse`: parse the greedy brace span when
one exists, else the whole text, returning the fallback on any parse
failure and never throwing. -/
def parseJsonResponse (text : String) (fallback : Option Json) : Option Json :=
  match jsGreedyBraceSpan text.toList with
  | some span =>
      (match jsonParse (⟨span⟩ : String) with
       | some v => some v
       | none => fallback)
  | none =>
      (match jsonParse text with
       | some v => some v
       | none => fallback)

/-- An LLM response containing two JSON objects. -/
def c9Text : String := "a \x7b\"x\":1\x7d b \x7b\"y\":2\x7d"

/-- C9 counterexample: on a response holding two JSON objects, the greedy
extraction spans from the first opening brace to the LAST closing brace,
which does not parse, so `parseJsonResponse` returns the fallback — even
though the first balanced brace span parses fine.  The extraction is not
the first balanced span the spec describes. -/
theorem c9_greedy_span_not_first_balanced :
    parseJsonResponse c9Text none = none ∧
      ((specFirstBalancedBraceSpan c9Text).bind jsonParse) =
        some (Json.obj [("x", Json.num 1)]) := ⟨rfl, rfl⟩

/-- C9 (amended): `parseJsonResponse` extracts the greedy
first-brace-to-last-brace span; when that span parses it is returned, on
any parse failure (or, with no such span, when the whole text fails to
parse) the supplied fallback is returned, and no input throws. -/
theorem c9_parse_response_behaviour (text : String) (fallback : Option Json) :
    (∀ span v, jsGreedyBraceSpan text.toList = some span →
        jsonParse (⟨span⟩ : String) = some v →
        parseJsonResponse text fallback = some v) ∧
      (∀ span, jsGreedyBraceSpan text.toList = some span →
        jsonParse (⟨span⟩ : String) = none →
        parseJsonResponse text fallback = fallback) ∧
      (jsGreedyBraceSpan text.toList = none → jsonParse text = none →
        parseJsonResponse text fallback = fallback) := by
  refine ⟨?_, ?_, ?_⟩
  · intro span v h1 h2
    unfold parseJsonResponse
    simp only [h1, h2]
  · intro span h1 h2
    unfold parseJsonResponse
    simp only [h1, h2]
  · intro h1 h2
    unfold parseJsonResponse
    simp only [h1, h2]

/-- C9 witness: the three behaviours on concrete inputs — a parseable
span, an unparseable span, and a text with no brace span at all. -/
theorem c9_parse_response_behaviour_witness :
    parseJsonResponse "\x7b\x7d" none = some (Json.obj []) ∧
      parseJsonResponse "\x7bx\x7d" (some Json.null) = some Json.null ∧
      parseJsonResponse "q" (some Json.null) = some Json.null :=
  ⟨(c9_parse_response_behaviour "\x7b\x7d" none).1 ['\x7b', '\x7d'] (Json.obj []) rfl rfl,
    (c9_parse_response_behaviour "\x7bx\x7d" (some Json.null)).2.1 ['\x7b', 'x', '\x7d'] rfl rfl,
    (c9_parse_response_behaviour "q" (some Json.null)).2.2 rfl rfl⟩
